import Mathlib

/-!
Verification of the `GitMaster254/metadata` repository: a shallow embedding
of its Spotify-proxy server (token cache and catalog normalization handlers)
and of the audio-metadata extractor's title selection, with theorems checking
the natural-language specification against this embedding.

Conventions of the embedding:
* JavaScript `undefined`/`null` field values are `Option.none`.
* JavaScript truthiness on strings (`""` is falsy) and numbers (`0` is falsy)
  is modelled explicitly by `isTruthyStr` / `isTruthyInt`; the short-circuit
  `a || b` on string-valued expressions is `jsOrStr`.
* `Date.now()` (milliseconds since epoch) is an `Int` parameter `now`; the
  source reads the clock twice inside one sequential call, which the
  sequential model renders as a single instant.
* The external credential exchange (`fetch` of the token endpoint) is a
  parameter of type `ExchangeResult`: either a success carrying
  `access_token` and `expires_in`, or a non-ok status with a body.
-/

set_option autoImplicit false

namespace Metadata

/-- JS truthiness of a possibly-absent string: `undefined`, `null` and `""`
are falsy, every other string is truthy. -/
def isTruthyStr : Option String → Bool
  | none => false
  | some s => s != ""

/-- JS truthiness of a possibly-absent number: `undefined`, `null` and `0`
are falsy. -/
def isTruthyInt : Option Int → Bool
  | none => false
  | some n => n != 0

/-- JS `a || b` for string-valued operands: yields `a` when `a` is truthy,
otherwise yields `b` unchanged (so a falsy `b`, such as `""`, survives). -/
def jsOrStr (a b : Option String) : Option String :=
  match a with
  | some s => if s != "" then some s else b
  | none => b

/-- JS `a || b` where `b` is a plain (string) literal, as in
`... || "Untitled"`. -/
def jsOrDefault (a : Option String) (b : String) : String :=
  match a with
  | some s => if s != "" then s else b
  | none => b

/-! ## Token cache (`getSpotifyToken`, server.js of the proxy) -/

/-- `SPOTIFY_CONFIG`: the two environment-variable credentials; an unset
variable is `none`, and an empty value is falsy under `isTruthyStr`. -/
structure SpotifyConfig where
  clientId : Option String
  clientSecret : Option String
  deriving DecidableEq

/-- The module-level mutable token state: `let accessToken = null` and
`let tokenExpiry = null`. -/
structure TokenCache where
  accessToken : Option String
  tokenExpiry : Option Int
  deriving DecidableEq

/-- Outcome of the external credential exchange: the parsed body of an ok
response (`access_token`, `expires_in` in seconds), or a non-ok HTTP status
with its body text. -/
inductive ExchangeResult where
  | ok (accessToken : String) (expiresIn : Int)
  | err (status : Nat) (body : String)
  deriving DecidableEq

/-- Errors thrown by `getSpotifyToken`: `'Spotify credentials not
configured'` and `` `Spotify token error: ${status} - ${errorText}` ``. -/
inductive TokenError where
  | configurationError
  | upstreamAuthError (status : Nat) (body : String)
  deriving DecidableEq

/-- Result of one `getSpotifyToken()` call: the returned token or thrown
error, the cache state after the call, and whether the external exchange
(the `fetch` to the token endpoint) was performed during the call. The
source has a single exchange site, so `exchanged = true` means exactly one
exchange. -/
structure TokenCallOutcome where
  result : Except TokenError String
  cache : TokenCache
  exchanged : Bool

/-- The guard `accessToken && tokenExpiry && Date.now() < tokenExpiry`
deciding whether the cached token is served. -/
def cacheHit (st : TokenCache) (now : Int) : Bool :=
  match st.accessToken, st.tokenExpiry with
  | some tok, some e => tok != "" && e != 0 && decide (now < e)
  | _, _ => false

/-- Shallow embedding of `getSpotifyToken` (server.js lines 85–118):
serve the cached token when the guard passes; otherwise throw
`configurationError` when either credential is falsy; otherwise perform the
exchange, and on a non-ok status throw `upstreamAuthError` leaving the
cache untouched, while on success store the token and
`Date.now() + (expires_in - 60) * 1000` and return the token. -/
def getSpotifyToken (cfg : SpotifyConfig) (exch : ExchangeResult) (now : Int)
    (st : TokenCache) : TokenCallOutcome :=
  if cacheHit st now then
    { result := .ok (st.accessToken.getD ""), cache := st, exchanged := false }
  else if !isTruthyStr cfg.clientId || !isTruthyStr cfg.clientSecret then
    { result := .error .configurationError, cache := st, exchanged := false }
  else
    match exch with
    | .err status body =>
        { result := .error (.upstreamAuthError status body), cache := st,
          exchanged := true }
    | .ok tok lifetime =>
        { result := .ok tok,
          cache := { accessToken := some tok,
                     tokenExpiry := some (now + (lifetime - 60) * 1000) },
          exchanged := true }

/-! ## Raw upstream shapes consumed by the catalog handlers -/

/-- An image descriptor from an upstream `images` array. -/
structure SpotifyImage where
  url : String
  deriving DecidableEq

/-- An artist object; only its display `name` is read by the handlers. -/
structure SpotifyArtist where
  name : String
  deriving DecidableEq

/-- The `album` object nested in a track; the handlers read `album?.name`
and `album?.images[i]?.url`. -/
structure SpotifyAlbum where
  name : Option String
  images : List SpotifyImage
  deriving DecidableEq

/-- A raw track object as read by the genre-tracks / search / featured
handlers: `id`, `name`, `artists`, `album` (possibly absent), `preview_url`
(possibly `null`), `duration_ms`, `external_urls.spotify`. -/
structure SpotifyTrack where
  id : String
  name : Option String
  artists : List SpotifyArtist
  album : Option SpotifyAlbum
  preview_url : Option String
  duration_ms : Int
  external_urls_spotify : String
  deriving DecidableEq

/-- An item of a playlist-tracks response: a wrapper whose `track` may be
`null`/absent. -/
structure PlaylistItem where
  track : Option SpotifyTrack
  deriving DecidableEq

/-- A raw album item of the new-releases response. -/
structure AlbumItem where
  id : String
  name : Option String
  artists : List SpotifyArtist
  images : List SpotifyImage
  external_urls_spotify : String
  release_date : String
  total_tracks : Int
  deriving DecidableEq

/-! ## Normalized output shapes -/

/-- The record built by the track-producing handlers. Field values that can
be JS `undefined` are `Option`s; note the duration field of the source
literal is spelled `duration`. -/
structure NormalizedTrack where
  id : String
  title : Option String
  artist : String
  album : Option String
  coverArt : Option String
  previewUrl : Option String
  duration : Int
  externalUrl : String
  deriving DecidableEq

/-- The record built by the new-releases handler. -/
structure NormalizedRelease where
  id : String
  title : Option String
  artist : String
  coverArt : Option String
  externalUrl : String
  releaseDate : String
  totalTracks : Int
  deriving DecidableEq

/-! ## Catalog normalization (`server.js` route handlers of the proxy) -/

/-- `album?.images[2]?.url || album?.images[1]?.url || album?.images[0]?.url`
as written in the track-shaped handlers. -/
def coverArtOfAlbum (album : Option SpotifyAlbum) : Option String :=
  jsOrStr (album.bind fun a => (a.images.get? 2).map SpotifyImage.url)
    (jsOrStr (album.bind fun a => (a.images.get? 1).map SpotifyImage.url)
      (album.bind fun a => (a.images.get? 0).map SpotifyImage.url))

/-- `images[2]?.url || images[1]?.url || images[0]?.url` as written in the
new-releases handler, where `images` is accessed without `?.`. -/
def coverFromImages (imgs : List SpotifyImage) : Option String :=
  jsOrStr ((imgs.get? 2).map SpotifyImage.url)
    (jsOrStr ((imgs.get? 1).map SpotifyImage.url)
      ((imgs.get? 0).map SpotifyImage.url))

/-- The object literal shared by the genre-tracks (lines 216–225), search
(lines 246–255) and featured (lines 167–176) handlers, built from a raw
track. -/
def trackToNormalized (t : SpotifyTrack) : NormalizedTrack :=
  { id := t.id
    title := t.name
    artist := String.intercalate ", " (t.artists.map SpotifyArtist.name)
    album := t.album.bind SpotifyAlbum.name
    coverArt := coverArtOfAlbum t.album
    previewUrl := t.preview_url
    duration := t.duration_ms
    externalUrl := t.external_urls_spotify }

/-- `/api/genre-tracks`: `data.tracks.filter(track => track.preview_url)`
then the map to the normalized literal. -/
def genreTracksHandler (tracks : List SpotifyTrack) : List NormalizedTrack :=
  (tracks.filter fun t => isTruthyStr t.preview_url).map trackToNormalized

/-- `/api/search`: `data.tracks.items.filter(track => track.preview_url)`
then the same map; the source repeats the literal verbatim. -/
def searchTracksHandler (tracks : List SpotifyTrack) : List NormalizedTrack :=
  (tracks.filter fun t => isTruthyStr t.preview_url).map trackToNormalized

/-- `/api/featured-tracks`:
`playlistTracks.items.filter(item => item.track && item.track.preview_url)`
followed by a map reading `item.track.*`; rendered as one `filterMap`
because the map re-reads the `track` field established by the filter. -/
def featuredTracksHandler (items : List PlaylistItem) : List NormalizedTrack :=
  items.filterMap fun it =>
    match it.track with
    | some t => if isTruthyStr t.preview_url then some (trackToNormalized t) else none
    | none => none

/-- The object literal of the new-releases handler (lines 272–280). -/
def albumToRelease (a : AlbumItem) : NormalizedRelease :=
  { id := a.id
    title := a.name
    artist := String.intercalate ", " (a.artists.map SpotifyArtist.name)
    coverArt := coverFromImages a.images
    externalUrl := a.external_urls_spotify
    releaseDate := a.release_date
    totalTracks := a.total_tracks }

/-- `/api/new-releases`: `data.albums.items.map(album => ({...}))`, with no
filter. -/
def newReleasesHandler (albums : List AlbumItem) : List NormalizedRelease :=
  albums.map albumToRelease

/-! ## Serialized (JSON) view of a track record, for claims about field
names. `res.json` omits keys whose value is `undefined`, so a field value
is an `Option JVal`. -/

/-- A primitive JSON value appearing in the track records. -/
inductive JVal where
  | str (s : String)
  | num (n : Int)
  deriving DecidableEq

/-- The track object literal viewed as an ordered key/value list, key names
exactly as the source spells them. -/
def trackResponseFields (t : SpotifyTrack) : List (String × Option JVal) :=
  [("id", some (JVal.str t.id)),
   ("title", t.name.map JVal.str),
   ("artist", some (JVal.str (String.intercalate ", " (t.artists.map SpotifyArtist.name)))),
   ("album", (t.album.bind SpotifyAlbum.name).map JVal.str),
   ("coverArt", (coverArtOfAlbum t.album).map JVal.str),
   ("previewUrl", t.preview_url.map JVal.str),
   ("duration", some (JVal.num t.duration_ms)),
   ("externalUrl", some (JVal.str t.external_urls_spotify))]

/-- The genre-tracks response as key/value lists. -/
def genreTracksJson (tracks : List SpotifyTrack) : List (List (String × Option JVal)) :=
  (tracks.filter fun t => isTruthyStr t.preview_url).map trackResponseFields

/-- The search response as key/value lists. -/
def searchTracksJson (tracks : List SpotifyTrack) : List (List (String × Option JVal)) :=
  (tracks.filter fun t => isTruthyStr t.preview_url).map trackResponseFields

/-- The featured-tracks response as key/value lists. -/
def featuredTracksJson (items : List PlaylistItem) : List (List (String × Option JVal)) :=
  items.filterMap fun it =>
    match it.track with
    | some t => if isTruthyStr t.preview_url then some (trackResponseFields t) else none
    | none => none

/-! ## Title selection of the metadata extractor (`src/extract-metadata.js`) -/

/-- `c.title || f.tags?.title || "Untitled"` (extract-metadata.js line 52):
the music-metadata common title, else the ffprobe format-tags title, else
the placeholder. -/
def extractTitle (commonTitle tagsTitle : Option String) : String :=
  jsOrDefault commonTitle (jsOrDefault tagsTitle "Untitled")

/-! ## Concrete test data -/

/-- A configuration with both credentials set and truthy. -/
def cfgTest : SpotifyConfig := { clientId := some "id", clientSecret := some "secret" }

/-! ## Basic equations for `getSpotifyToken` -/

theorem getToken_hit (cfg : SpotifyConfig) (exch : ExchangeResult) (now : Int)
    (st : TokenCache) (h : cacheHit st now = true) :
    getSpotifyToken cfg exch now st =
      { result := .ok (st.accessToken.getD ""), cache := st, exchanged := false } := by
  simp [getSpotifyToken, h]

theorem cacheHit_true (st : TokenCache) (now : Int) (tok : String) (e : Int)
    (htok : st.accessToken = some tok) (hne : tok ≠ "")
    (hexp : st.tokenExpiry = some e) (he : e ≠ 0) (hlt : now < e) :
    cacheHit st now = true := by
  simp [cacheHit, htok, hexp, hne, he, hlt]

theorem cacheHit_false_of_miss (st : TokenCache) (now : Int)
    (h : st.accessToken = none ∨ ∃ e, st.tokenExpiry = some e ∧ e ≤ now) :
    cacheHit st now = false := by
  rcases h with h | ⟨e, hexp, hle⟩
  · simp [cacheHit, h]
  · cases htok : st.accessToken with
    | none => simp [cacheHit, htok]
    | some t => simp [cacheHit, htok, hexp, not_lt.mpr hle]

theorem config_truthy (cfg : SpotifyConfig) (cid cs : String)
    (h1 : cfg.clientId = some cid) (h2 : cid ≠ "")
    (h3 : cfg.clientSecret = some cs) (h4 : cs ≠ "") :
    (!isTruthyStr cfg.clientId || !isTruthyStr cfg.clientSecret) = false := by
  simp [isTruthyStr, h1, h2, h3, h4]

theorem getToken_noConfig (cfg : SpotifyConfig) (exch : ExchangeResult) (now : Int)
    (st : TokenCache) (hmiss : cacheHit st now = false)
    (hcfg : (!isTruthyStr cfg.clientId || !isTruthyStr cfg.clientSecret) = true) :
    getSpotifyToken cfg exch now st =
      { result := .error .configurationError, cache := st, exchanged := false } := by
  simp [getSpotifyToken, hmiss, hcfg]

theorem getToken_exchange_ok (cfg : SpotifyConfig) (tok : String) (lifetime : Int)
    (now : Int) (st : TokenCache) (hmiss : cacheHit st now = false)
    (hcfg : (!isTruthyStr cfg.clientId || !isTruthyStr cfg.clientSecret) = false) :
    getSpotifyToken cfg (.ok tok lifetime) now st =
      { result := .ok tok,
        cache := { accessToken := some tok,
                   tokenExpiry := some (now + (lifetime - 60) * 1000) },
        exchanged := true } := by
  simp [getSpotifyToken, hmiss, hcfg]

theorem getToken_exchange_err (cfg : SpotifyConfig) (status : Nat) (body : String)
    (now : Int) (st : TokenCache) (hmiss : cacheHit st now = false)
    (hcfg : (!isTruthyStr cfg.clientId || !isTruthyStr cfg.clientSecret) = false) :
    getSpotifyToken cfg (.err status body) now st =
      { result := .error (.upstreamAuthError status body), cache := st,
        exchanged := true } := by
  simp [getSpotifyToken, hmiss, hcfg]

theorem getToken_exchanged_of_miss (cfg : SpotifyConfig) (exch : ExchangeResult)
    (now : Int) (st : TokenCache) (hmiss : cacheHit st now = false)
    (hcfg : (!isTruthyStr cfg.clientId || !isTruthyStr cfg.clientSecret) = false) :
    (getSpotifyToken cfg exch now st).exchanged = true := by
  cases exch with
  | ok tok lifetime => rw [getToken_exchange_ok cfg tok lifetime now st hmiss hcfg]
  | err status body => rw [getToken_exchange_err cfg status body now st hmiss hcfg]

/-! ## Claim theorems: token cache -/

/-- C1 counterexample: a cache state holding the token `""` with recorded
expiry `100`, strictly after the instant `50`, nevertheless triggers the
exchanger (`exchanged = true`), because the source guard
`accessToken && ...` treats the empty string as falsy. This refutes the
claim that every held token with a future expiry is served from the cache
with no external call. -/
theorem C1_counterexample :
    ({ accessToken := some "", tokenExpiry := some 100 } : TokenCache).accessToken
        = some "" ∧
    (50 : Int) < 100 ∧
    (getSpotifyToken cfgTest (.ok "fresh" 3600) 50
        { accessToken := some "", tokenExpiry := some 100 }).exchanged = true := by
  refine ⟨rfl, by decide, ?_⟩
  rfl

/-- C1 (amended): for every cache state holding a non-empty token whose
recorded expiry is strictly after the current nonnegative instant,
`getSpotifyToken` returns that cached token unchanged, leaves the cache
unchanged, and performs no external exchange. -/
theorem C1_cached_token_served (cfg : SpotifyConfig) (exch : ExchangeResult)
    (now : Int) (st : TokenCache) (tok : String) (e : Int)
    (htok : st.accessToken = some tok) (hne : tok ≠ "")
    (hexp : st.tokenExpiry = some e) (hnow : 0 ≤ now) (hlt : now < e) :
    (getSpotifyToken cfg exch now st).result = .ok tok ∧
    (getSpotifyToken cfg exch now st).cache = st ∧
    (getSpotifyToken cfg exch now st).exchanged = false := by
  have he : e ≠ 0 := by omega
  have hhit := cacheHit_true st now tok e htok hne hexp he hlt
  rw [getToken_hit cfg exch now st hhit]
  exact ⟨by simp [htok], rfl, rfl⟩

/-- Witness for C1: the amended theorem applied at a concrete cache state. -/
theorem C1_cached_token_served_witness :
    (getSpotifyToken cfgTest (.ok "fresh" 3600) 50
        { accessToken := some "tok", tokenExpiry := some 100 }).result = .ok "tok" ∧
    (getSpotifyToken cfgTest (.ok "fresh" 3600) 50
        { accessToken := some "tok", tokenExpiry := some 100 }).cache =
      { accessToken := some "tok", tokenExpiry := some 100 } ∧
    (getSpotifyToken cfgTest (.ok "fresh" 3600) 50
        { accessToken := some "tok", tokenExpiry := some 100 }).exchanged = false :=
  C1_cached_token_served cfgTest (.ok "fresh" 3600) 50
    { accessToken := some "tok", tokenExpiry := some 100 } "tok" 100
    rfl (by decide) rfl (by decide) (by decide)

/-- C2: when no cached token exists or the current instant is not strictly
before the recorded expiry, and both credentials are configured, a successful
exchange stores its token, records expiry `now + (lifetime − 60)·1000` ms
(i.e. call time plus lifetime minus the 60 s margin) and returns the new
token, the exchange being performed (once; the source has a single exchange
site). With `lifetime = 3600` the recorded expiry is `now + 3540` s, and a
further call at `now + 3541` s performs a fresh exchange whatever its
outcome. -/
theorem C2_token_refresh (cfg : SpotifyConfig) (cid cs : String)
    (now : Int) (st : TokenCache) (tok : String) (lifetime : Int)
    (h1 : cfg.clientId = some cid) (h2 : cid ≠ "")
    (h3 : cfg.clientSecret = some cs) (h4 : cs ≠ "")
    (hmiss : st.accessToken = none ∨ ∃ e, st.tokenExpiry = some e ∧ e ≤ now) :
    getSpotifyToken cfg (.ok tok lifetime) now st =
      { result := .ok tok,
        cache := { accessToken := some tok,
                   tokenExpiry := some (now + (lifetime - 60) * 1000) },
        exchanged := true } ∧
    (lifetime = 3600 →
      (getSpotifyToken cfg (.ok tok lifetime) now st).cache.tokenExpiry
        = some (now + 3540 * 1000)) ∧
    (∀ exch2 : ExchangeResult,
      (getSpotifyToken cfg exch2 (now + 3541 * 1000)
          { accessToken := some tok,
            tokenExpiry := some (now + 3540 * 1000) }).exchanged = true) := by
  have hmissF := cacheHit_false_of_miss st now hmiss
  have hcfg := config_truthy cfg cid cs h1 h2 h3 h4
  have hmain := getToken_exchange_ok cfg tok lifetime now st hmissF hcfg
  refine ⟨hmain, ?_, ?_⟩
  · intro hL
    subst hL
    rw [hmain]
    norm_num
  · intro exch2
    have hmiss2 : cacheHit
        { accessToken := some tok, tokenExpiry := some (now + 3540 * 1000) }
        (now + 3541 * 1000) = false := by
      apply cacheHit_false_of_miss
      exact Or.inr ⟨now + 3540 * 1000, rfl, by omega⟩
    exact getToken_exchanged_of_miss cfg exch2 (now + 3541 * 1000) _ hmiss2 hcfg

/-- Witness for C2: the theorem applied with an empty cache at instant 0 and
lifetime 3600. -/
theorem C2_token_refresh_witness :
    getSpotifyToken cfgTest (.ok "t2" 3600) 0
        { accessToken := none, tokenExpiry := none } =
      { result := .ok "t2",
        cache := { accessToken := some "t2",
                   tokenExpiry := some ((0 : Int) + ((3600 : Int) - 60) * 1000) },
        exchanged := true } ∧
    ((3600 : Int) = 3600 →
      (getSpotifyToken cfgTest (.ok "t2" 3600) 0
          { accessToken := none, tokenExpiry := none }).cache.tokenExpiry
        = some ((0 : Int) + 3540 * 1000)) ∧
    (∀ exch2 : ExchangeResult,
      (getSpotifyToken cfgTest exch2 ((0 : Int) + 3541 * 1000)
          { accessToken := some "t2",
            tokenExpiry := some ((0 : Int) + 3540 * 1000) }).exchanged = true) :=
  C2_token_refresh cfgTest "id" "secret" 0
    { accessToken := none, tokenExpiry := none } "t2" 3600
    rfl (by decide) rfl (by decide) (Or.inl rfl)

/-- C3 counterexample: with an exchanger reporting a lifetime of 30 s, a
fresh token obtained at instant 0 is returned immediately, yet its real
expiry is `0 + 30·1000` ms away — less than the 60 s (60000 ms) margin the
claim asserts always holds for a returned token. -/
theorem C3_counterexample :
    (getSpotifyToken cfgTest (.ok "tok" 30) 0
        { accessToken := none, tokenExpiry := none }).result = .ok "tok" ∧
    ¬ ((0 : Int) + 60000 ≤ 0 + 30 * 1000) := by
  exact ⟨rfl, by decide⟩

/-- C3 (amended): provided every reported lifetime is at least 60 s, a token
returned by `getSpotifyToken` is returned at least 60 s (60000 ms) before its
real expiry (store instant plus reported lifetime in ms): a freshly stored
token returned at `now` has real expiry `now + lifetime·1000 ≥ now + 60000`,
and a cached token stored at instant `t` with lifetime `L` (recorded expiry
`t + (L − 60)·1000`) is served only while `now + 60000 ≤ t + L·1000`. -/
theorem C3_safety_margin :
    (∀ (cfg : SpotifyConfig) (cid cs tok : String) (lifetime now : Int)
        (st : TokenCache),
      cfg.clientId = some cid → cid ≠ "" →
      cfg.clientSecret = some cs → cs ≠ "" →
      (st.accessToken = none ∨ ∃ e, st.tokenExpiry = some e ∧ e ≤ now) →
      60 ≤ lifetime →
      (getSpotifyToken cfg (.ok tok lifetime) now st).result = .ok tok ∧
      now + 60000 ≤ now + lifetime * 1000) ∧
    (∀ (cfg : SpotifyConfig) (exch : ExchangeResult) (now t lifetime : Int)
        (st : TokenCache) (tok : String),
      st.accessToken = some tok → tok ≠ "" →
      st.tokenExpiry = some (t + (lifetime - 60) * 1000) →
      0 ≤ now → now < t + (lifetime - 60) * 1000 →
      (getSpotifyToken cfg exch now st).result = .ok tok ∧
      now + 60000 ≤ t + lifetime * 1000) := by
  constructor
  · intro cfg cid cs tok lifetime now st h1 h2 h3 h4 hmiss hL
    have hmissF := cacheHit_false_of_miss st now hmiss
    have hcfg := config_truthy cfg cid cs h1 h2 h3 h4
    rw [getToken_exchange_ok cfg tok lifetime now st hmissF hcfg]
    exact ⟨rfl, by omega⟩
  · intro cfg exch now t lifetime st tok htok hne hexp hnow hlt
    have he : t + (lifetime - 60) * 1000 ≠ 0 := by omega
    have hhit := cacheHit_true st now tok _ htok hne hexp he hlt
    rw [getToken_hit cfg exch now st hhit]
    exact ⟨by simp [htok], by omega⟩

/-- Witness for C3: both branches of the amended theorem at concrete inputs
(a fresh exchange of lifetime 3600 at instant 0, and a cached token stored at
instant 0 with lifetime 3600 served at instant 5). -/
theorem C3_safety_margin_witness :
    ((getSpotifyToken cfgTest (.ok "t3" 3600) 0
        { accessToken := none, tokenExpiry := none }).result = .ok "t3" ∧
      (0 : Int) + 60000 ≤ 0 + 3600 * 1000) ∧
    ((getSpotifyToken cfgTest (.ok "x" 3600) 5
        { accessToken := some "t3",
          tokenExpiry := some ((0 : Int) + ((3600 : Int) - 60) * 1000) }).result
        = .ok "t3" ∧
      (5 : Int) + 60000 ≤ 0 + 3600 * 1000) :=
  ⟨C3_safety_margin.1 cfgTest "id" "secret" "t3" 3600 0
      { accessToken := none, tokenExpiry := none }
      rfl (by decide) rfl (by decide) (Or.inl rfl) (by decide),
   C3_safety_margin.2 cfgTest (.ok "x" 3600) 5 0 3600
      { accessToken := some "t3",
        tokenExpiry := some ((0 : Int) + ((3600 : Int) - 60) * 1000) } "t3"
      rfl (by decide) rfl (by decide) (by decide)⟩

/-- C4: when the guard fails, credentials are configured and the exchange
answers with a non-ok status, `getSpotifyToken` fails with
`upstreamAuthError` carrying that status and body, the cache is left
unchanged, and any later call (at any instant not before the present one,
the guard-failing reason persisting) performs the exchange again. -/
theorem C4_exchange_failure (cfg : SpotifyConfig) (cid cs : String)
    (status : Nat) (body : String) (now : Int) (st : TokenCache)
    (h1 : cfg.clientId = some cid) (h2 : cid ≠ "")
    (h3 : cfg.clientSecret = some cs) (h4 : cs ≠ "")
    (hmiss : st.accessToken = none ∨ ∃ e, st.tokenExpiry = some e ∧ e ≤ now) :
    (getSpotifyToken cfg (.err status body) now st).result
        = .error (.upstreamAuthError status body) ∧
    (getSpotifyToken cfg (.err status body) now st).cache = st ∧
    (∀ (exch2 : ExchangeResult) (now2 : Int), now ≤ now2 →
      (getSpotifyToken cfg exch2 now2 st).exchanged = true) := by
  have hmissF := cacheHit_false_of_miss st now hmiss
  have hcfg := config_truthy cfg cid cs h1 h2 h3 h4
  have hmain := getToken_exchange_err cfg status body now st hmissF hcfg
  refine ⟨by rw [hmain], by rw [hmain], ?_⟩
  intro exch2 now2 hle2
  have hmiss2 : cacheHit st now2 = false := by
    apply cacheHit_false_of_miss
    rcases hmiss with h | ⟨e, hexp, hle⟩
    · exact Or.inl h
    · exact Or.inr ⟨e, hexp, by omega⟩
  exact getToken_exchanged_of_miss cfg exch2 now2 st hmiss2 hcfg

/-- Witness for C4: a 503 exchange failure at instant 7 on an empty cache,
retried at instant 9. -/
theorem C4_exchange_failure_witness :
    (getSpotifyToken cfgTest (.err 503 "busy") 7
        { accessToken := none, tokenExpiry := none }).result
        = .error (.upstreamAuthError 503 "busy") ∧
    (getSpotifyToken cfgTest (.err 503 "busy") 7
        { accessToken := none, tokenExpiry := none }).cache
        = { accessToken := none, tokenExpiry := none } ∧
    (∀ (exch2 : ExchangeResult) (now2 : Int), (7 : Int) ≤ now2 →
      (getSpotifyToken cfgTest exch2 now2
          { accessToken := none, tokenExpiry := none }).exchanged = true) :=
  C4_exchange_failure cfgTest "id" "secret" 503 "busy" 7
    { accessToken := none, tokenExpiry := none }
    rfl (by decide) rfl (by decide) (Or.inl rfl)

/-- C5: when no valid cached token exists (the guard fails) and either
required credential is absent, `getSpotifyToken` fails with
`configurationError`, performs no exchange, and leaves the cache
unchanged. -/
theorem C5_missing_credentials (cfg : SpotifyConfig) (exch : ExchangeResult)
    (now : Int) (st : TokenCache)
    (hmiss : cacheHit st now = false)
    (hcfg : cfg.clientId = none ∨ cfg.clientSecret = none) :
    (getSpotifyToken cfg exch now st).result = .error .configurationError ∧
    (getSpotifyToken cfg exch now st).exchanged = false ∧
    (getSpotifyToken cfg exch now st).cache = st := by
  have hcfgT : (!isTruthyStr cfg.clientId || !isTruthyStr cfg.clientSecret) = true := by
    rcases hcfg with h | h <;> simp [isTruthyStr, h]
  rw [getToken_noConfig cfg exch now st hmiss hcfgT]
  exact ⟨rfl, rfl, rfl⟩

/-- Witness for C5: a call with no client secret on an empty cache. -/
theorem C5_missing_credentials_witness :
    (getSpotifyToken { clientId := some "id", clientSecret := none }
        (.ok "t5" 3600) 3 { accessToken := none, tokenExpiry := none }).result
        = .error .configurationError ∧
    (getSpotifyToken { clientId := some "id", clientSecret := none }
        (.ok "t5" 3600) 3 { accessToken := none, tokenExpiry := none }).exchanged
        = false ∧
    (getSpotifyToken { clientId := some "id", clientSecret := none }
        (.ok "t5" 3600) 3 { accessToken := none, tokenExpiry := none }).cache
        = { accessToken := none, tokenExpiry := none } :=
  C5_missing_credentials { clientId := some "id", clientSecret := none }
    (.ok "t5" 3600) 3 { accessToken := none, tokenExpiry := none }
    (by decide) (Or.inr rfl)

/-! ## Equations for the cover-art selection chain -/

theorem coverFromImages_three (x y z : SpotifyImage) (rest : List SpotifyImage)
    (hz : z.url ≠ "") : coverFromImages (x :: y :: z :: rest) = some z.url := by
  show jsOrStr (some z.url) (jsOrStr (some y.url) (some x.url)) = some z.url
  simp [jsOrStr, hz]

theorem coverFromImages_two (x y : SpotifyImage) (hy : y.url ≠ "") :
    coverFromImages [x, y] = some y.url := by
  show jsOrStr none (jsOrStr (some y.url) (some x.url)) = some y.url
  simp [jsOrStr, hy]

theorem coverFromImages_one (x : SpotifyImage) :
    coverFromImages [x] = some x.url := rfl

theorem coverFromImages_nil : coverFromImages [] = none := rfl

theorem eq_none_or_empty_of_falsyStr (o : Option String)
    (h : isTruthyStr o = false) : o = none ∨ o = some "" := by
  cases o with
  | none => exact Or.inl rfl
  | some s =>
    simp [isTruthyStr] at h
    exact Or.inr (by rw [h])

/-! ## Concrete raw items for witnesses and counterexamples -/

/-- A raw track with no preview URL. -/
def trC6 : SpotifyTrack :=
  { id := "t6", name := some "T", artists := [{ name := "A" }], album := none,
    preview_url := none, duration_ms := 5, external_urls_spotify := "u" }

/-- A raw new-release album with no images. -/
def albC6 : AlbumItem :=
  { id := "a6", name := some "R", artists := [{ name := "A" }], images := [],
    external_urls_spotify := "u", release_date := "2021-02-03",
    total_tracks := 7 }

/-- A raw new-release album whose third image URL is the empty string. -/
def albC7 : AlbumItem :=
  { id := "a1", name := some "X", artists := [{ name := "Y" }],
    images := [{ url := "L" }, { url := "M" }, { url := "" }],
    external_urls_spotify := "e", release_date := "2020-01-01",
    total_tracks := 10 }

/-- A raw track with no `name` field but a preview URL. -/
def trC8 : SpotifyTrack :=
  { id := "t8", name := none, artists := [{ name := "A" }], album := none,
    preview_url := some "p", duration_ms := 1000, external_urls_spotify := "x" }

/-- A fully populated raw track. -/
def trC9 : SpotifyTrack :=
  { id := "t9", name := some "N", artists := [{ name := "A" }, { name := "B" }],
    album := some { name := some "Al",
                    images := [{ url := "L" }, { url := "M" }, { url := "S" }] },
    preview_url := some "p", duration_ms := 123, external_urls_spotify := "u" }

/-- A playlist item whose `track` is `null`. -/
def itemNoTrack : PlaylistItem := { track := none }

/-- The key names of the track object literal, in source order. -/
def trackKeys : List String :=
  ["id", "title", "artist", "album", "coverArt", "previewUrl", "duration",
   "externalUrl"]

/-! ## Claim theorems: catalog normalization -/

/-- C6: an item whose `preview_url` is absent contributes nothing to the
output of any track-producing handler (genre tracks, search, featured),
while the new-releases handler never filters: its output has one release per
input album. -/
theorem C6_preview_filter :
    (∀ (pre post : List SpotifyTrack) (t : SpotifyTrack), t.preview_url = none →
        genreTracksHandler (pre ++ t :: post) = genreTracksHandler (pre ++ post)) ∧
    (∀ (pre post : List SpotifyTrack) (t : SpotifyTrack), t.preview_url = none →
        searchTracksHandler (pre ++ t :: post) = searchTracksHandler (pre ++ post)) ∧
    (∀ (pre post : List PlaylistItem) (it : PlaylistItem) (t : SpotifyTrack),
        it.track = some t → t.preview_url = none →
        featuredTracksHandler (pre ++ it :: post)
          = featuredTracksHandler (pre ++ post)) ∧
    (∀ albums : List AlbumItem,
        (newReleasesHandler albums).length = albums.length) := by
  refine ⟨?_, ?_, ?_, ?_⟩
  · intro pre post t ht
    simp [genreTracksHandler, List.filter_append, List.filter_cons, ht, isTruthyStr]
  · intro pre post t ht
    simp [searchTracksHandler, List.filter_append, List.filter_cons, ht, isTruthyStr]
  · intro pre post it t hit ht
    simp [featuredTracksHandler, List.filterMap_append, List.filterMap_cons, hit,
      ht, isTruthyStr]
  · intro albums
    simp [newReleasesHandler]

/-- Witness for C6: a previewless track vanishes from each track handler, and
one album yields one release. -/
theorem C6_preview_filter_witness :
    genreTracksHandler ([] ++ trC6 :: []) = genreTracksHandler ([] ++ []) ∧
    searchTracksHandler ([] ++ trC6 :: []) = searchTracksHandler ([] ++ []) ∧
    featuredTracksHandler ([] ++ { track := some trC6 } :: [])
      = featuredTracksHandler ([] ++ []) ∧
    (newReleasesHandler [albC6]).length = [albC6].length :=
  ⟨C6_preview_filter.1 [] [] trC6 rfl,
   C6_preview_filter.2.1 [] [] trC6 rfl,
   C6_preview_filter.2.2.1 [] [] { track := some trC6 } trC6 rfl rfl,
   C6_preview_filter.2.2.2 [albC6]⟩

/-- C7 counterexample: `albC7` has exactly three images and the URL at index
2 is the empty string, yet the normalized `coverArt` is the URL at index 1
(`"M"`), because the source `||` chain skips falsy strings. This refutes the
claim that a length-≥-3 image list always yields the URL at index 2. -/
theorem C7_counterexample :
    albC7.images.length = 3 ∧
    (albC7.images.get? 2).map SpotifyImage.url = some "" ∧
    (albumToRelease albC7).coverArt = some "M" ∧
    (some "M" : Option String) ≠ some "" := by
  refine ⟨rfl, rfl, rfl, by decide⟩

/-- C7 (amended): the cover-art field equals the URL at index 2 when the
image list has length ≥ 3 and that URL is non-empty, the URL at index 1 for
length exactly 2 when that URL is non-empty, the URL at index 0 for length 1
(unconditionally, the last `||` operand being returned even when falsy), and
is absent for an empty list — both for the new-releases normalizer and for
the track normalizer when an album is present. -/
theorem C7_coverArt_selection :
    (∀ (a : AlbumItem) (x y z : SpotifyImage) (rest : List SpotifyImage),
        a.images = x :: y :: z :: rest → z.url ≠ "" →
        (albumToRelease a).coverArt = some z.url) ∧
    (∀ (a : AlbumItem) (x y : SpotifyImage),
        a.images = [x, y] → y.url ≠ "" →
        (albumToRelease a).coverArt = some y.url) ∧
    (∀ (a : AlbumItem) (x : SpotifyImage),
        a.images = [x] → (albumToRelease a).coverArt = some x.url) ∧
    (∀ a : AlbumItem, a.images = [] → (albumToRelease a).coverArt = none) ∧
    (∀ (t : SpotifyTrack) (alb : SpotifyAlbum) (x y z : SpotifyImage)
        (rest : List SpotifyImage),
        t.album = some alb → alb.images = x :: y :: z :: rest → z.url ≠ "" →
        (trackToNormalized t).coverArt = some z.url) ∧
    (∀ (t : SpotifyTrack) (alb : SpotifyAlbum) (x y : SpotifyImage),
        t.album = some alb → alb.images = [x, y] → y.url ≠ "" →
        (trackToNormalized t).coverArt = some y.url) ∧
    (∀ (t : SpotifyTrack) (alb : SpotifyAlbum) (x : SpotifyImage),
        t.album = some alb → alb.images = [x] →
        (trackToNormalized t).coverArt = some x.url) ∧
    (∀ (t : SpotifyTrack) (alb : SpotifyAlbum),
        t.album = some alb → alb.images = [] →
        (trackToNormalized t).coverArt = none) := by
  refine ⟨?_, ?_, ?_, ?_, ?_, ?_, ?_, ?_⟩
  · intro a x y z rest himgs hz
    show coverFromImages a.images = some z.url
    rw [himgs]
    exact coverFromImages_three x y z rest hz
  · intro a x y himgs hy
    show coverFromImages a.images = some y.url
    rw [himgs]
    exact coverFromImages_two x y hy
  · intro a x himgs
    show coverFromImages a.images = some x.url
    rw [himgs]
    exact coverFromImages_one x
  · intro a himgs
    show coverFromImages a.images = none
    rw [himgs]
    exact coverFromImages_nil
  · intro t alb x y z rest halb himgs hz
    show coverArtOfAlbum t.album = some z.url
    rw [halb]
    show coverFromImages alb.images = some z.url
    rw [himgs]
    exact coverFromImages_three x y z rest hz
  · intro t alb x y halb himgs hy
    show coverArtOfAlbum t.album = some y.url
    rw [halb]
    show coverFromImages alb.images = some y.url
    rw [himgs]
    exact coverFromImages_two x y hy
  · intro t alb x halb himgs
    show coverArtOfAlbum t.album = some x.url
    rw [halb]
    show coverFromImages alb.images = some x.url
    rw [himgs]
    exact coverFromImages_one x
  · intro t alb halb himgs
    show coverArtOfAlbum t.album = none
    rw [halb]
    show coverFromImages alb.images = none
    rw [himgs]
    exact coverFromImages_nil

/-- Witness for C7: the amended theorem instantiated on the four album image
list lengths (3, 2, 1, 0) using concrete items. -/
theorem C7_coverArt_selection_witness :
    (albumToRelease { albC6 with
        images := [{ url := "L" }, { url := "M" }, { url := "S" }] }).coverArt
      = some "S" ∧
    (albumToRelease { albC6 with
        images := [{ url := "L" }, { url := "M" }] }).coverArt = some "M" ∧
    (albumToRelease { albC6 with images := [{ url := "L" }] }).coverArt
      = some "L" ∧
    (albumToRelease albC6).coverArt = none :=
  ⟨C7_coverArt_selection.1 _ { url := "L" } { url := "M" } { url := "S" } []
      rfl (by decide),
   C7_coverArt_selection.2.1 _ { url := "L" } { url := "M" } rfl (by decide),
   C7_coverArt_selection.2.2.1 _ { url := "L" } rfl,
   C7_coverArt_selection.2.2.2.1 albC6 rfl⟩

/-- C8 counterexample: a catalog track with no `name` and a preview URL is
normalized by the featured handler with an absent title (`none`), not the
placeholder `"Untitled"`: the catalog normalizer has no title fallback at
all — the described fallback chain lives in the metadata extractor. -/
theorem C8_counterexample :
    (featuredTracksHandler [{ track := some trC8 }]).map NormalizedTrack.title
        = [none] ∧
    (none : Option String) ≠ some "Untitled" := by
  exact ⟨rfl, by decide⟩

/-- C8 (amended): the title fallback chain belongs to the metadata
extractor's `extractTitle` — it yields the primary (music-metadata common)
title when non-empty, else the ffprobe format-tags title when non-empty,
else the literal `"Untitled"` (empty strings behaving as absent under JS
truthiness) — while the catalog normalizer passes the raw upstream `name`
through unchanged. -/
theorem C8_title_fallback :
    (∀ (ct ft : Option String) (s : String), ct = some s → s ≠ "" →
        extractTitle ct ft = s) ∧
    (∀ (ct ft : Option String) (s : String), isTruthyStr ct = false →
        ft = some s → s ≠ "" → extractTitle ct ft = s) ∧
    (∀ ct ft : Option String, isTruthyStr ct = false → isTruthyStr ft = false →
        extractTitle ct ft = "Untitled") ∧
    (∀ t : SpotifyTrack, (trackToNormalized t).title = t.name) := by
  refine ⟨?_, ?_, ?_, fun t => rfl⟩
  · intro ct ft s hct hs
    subst hct
    simp [extractTitle, jsOrDefault, hs]
  · intro ct ft s hct hft hs
    subst hft
    rcases eq_none_or_empty_of_falsyStr ct hct with h | h <;> subst h <;>
      simp [extractTitle, jsOrDefault, hs]
  · intro ct ft hct hft
    rcases eq_none_or_empty_of_falsyStr ct hct with h | h <;>
      rcases eq_none_or_empty_of_falsyStr ft hft with h2 | h2 <;>
      subst h <;> subst h2 <;> simp [extractTitle, jsOrDefault]

/-- Witness for C8: each branch of the fallback chain at concrete titles, and
the catalog passthrough on `trC8`. -/
theorem C8_title_fallback_witness :
    extractTitle (some "Song") (some "Tag") = "Song" ∧
    extractTitle none (some "Tag") = "Tag" ∧
    extractTitle none none = "Untitled" ∧
    (trackToNormalized trC8).title = trC8.name :=
  ⟨C8_title_fallback.1 (some "Song") (some "Tag") "Song" rfl (by decide),
   C8_title_fallback.2.1 none (some "Tag") "Tag" rfl rfl (by decide),
   C8_title_fallback.2.2.1 none none rfl rfl,
   C8_title_fallback.2.2.2 trC8⟩

/-- C9 counterexample: a concrete genre-tracks response record has key list
`id, title, artist, album, coverArt, previewUrl, duration, externalUrl` —
and `durationMs` is not among these keys: the duration field of the source
literal is named `duration`, not `durationMs`. -/
theorem C9_counterexample :
    (genreTracksJson [trC9]).map (List.map Prod.fst)
        = [["id", "title", "artist", "album", "coverArt", "previewUrl",
            "duration", "externalUrl"]] ∧
    "durationMs" ∉ ["id", "title", "artist", "album", "coverArt",
        "previewUrl", "duration", "externalUrl"] := by
  exact ⟨rfl, by decide⟩

/-- C9 (amended): every record produced by the track-producing endpoints
(genre tracks, search, featured) has exactly the keys `id, title, artist,
album, coverArt, previewUrl, duration, externalUrl` in source order — the
duration field is named `duration`. -/
theorem C9_record_shape :
    (∀ (ts : List SpotifyTrack) (r : List (String × Option JVal)),
        r ∈ genreTracksJson ts → r.map Prod.fst = trackKeys) ∧
    (∀ (ts : List SpotifyTrack) (r : List (String × Option JVal)),
        r ∈ searchTracksJson ts → r.map Prod.fst = trackKeys) ∧
    (∀ (items : List PlaylistItem) (r : List (String × Option JVal)),
        r ∈ featuredTracksJson items → r.map Prod.fst = trackKeys) := by
  have hkeys : ∀ t : SpotifyTrack, (trackResponseFields t).map Prod.fst = trackKeys :=
    fun t => rfl
  refine ⟨?_, ?_, ?_⟩
  · intro ts r hr
    simp [genreTracksJson] at hr
    obtain ⟨t, _, rfl⟩ := hr
    exact hkeys t
  · intro ts r hr
    simp [searchTracksJson] at hr
    obtain ⟨t, _, rfl⟩ := hr
    exact hkeys t
  · intro items r hr
    simp [featuredTracksJson, List.mem_filterMap] at hr
    obtain ⟨it, _, hit⟩ := hr
    cases htr : it.track with
    | none =>
      rw [htr] at hit
      exact Option.noConfusion
        (show (none : Option (List (String × Option JVal))) = some r from hit)
    | some t =>
      rw [htr] at hit
      have hit2 : (if isTruthyStr t.preview_url = true then
          some (trackResponseFields t) else none) = some r := hit
      by_cases hp : isTruthyStr t.preview_url = true
      · rw [if_pos hp] at hit2
        injection hit2 with h
        subst h
        exact hkeys t
      · rw [if_neg hp] at hit2
        exact Option.noConfusion hit2

/-- Witness for C9: the amended theorem at a concrete record of each of the
three handlers. -/
theorem C9_record_shape_witness :
    (trackResponseFields trC9).map Prod.fst = trackKeys ∧
    (trackResponseFields trC9).map Prod.fst = trackKeys ∧
    (trackResponseFields trC9).map Prod.fst = trackKeys :=
  ⟨C9_record_shape.1 [trC9] (trackResponseFields trC9)
      (List.mem_singleton.mpr rfl),
   C9_record_shape.2.1 [trC9] (trackResponseFields trC9)
      (List.mem_singleton.mpr rfl),
   C9_record_shape.2.2 [{ track := some trC9 }] (trackResponseFields trC9)
      (List.mem_singleton.mpr rfl)⟩

/-- C10: a playlist item whose `track` is `null`/absent contributes nothing
to the featured-tracks output — it is dropped by the
`item.track && item.track.preview_url` filter rather than causing a field
read on `null`. -/
theorem C10_null_track_skipped (pre post : List PlaylistItem)
    (it : PlaylistItem) (h : it.track = none) :
    featuredTracksHandler (pre ++ it :: post)
      = featuredTracksHandler (pre ++ post) := by
  simp [featuredTracksHandler, List.filterMap_append, List.filterMap_cons, h]

/-- Witness for C10: a `null`-track item alone produces the same (empty)
output as no item. -/
theorem C10_null_track_skipped_witness :
    featuredTracksHandler ([] ++ itemNoTrack :: []) = featuredTracksHandler ([] ++ []) :=
  C10_null_track_skipped [] [] itemNoTrack rfl

end Metadata
